import Mathlib

/-!
Shallow embedding of the `logger` Go package (a thin wrapper around the zap
structured-logging library) for checking its specification.

The package has two source files: `log.go` (the `Logger` struct wrapping a
`*zap.SugaredLogger` plus a shared `zap.AtomicLevel`, a `Config`/`New`
constructor, `SetLevel`, the `With*` cloning helpers and the pass-through
level methods) and a small global-logger file (`globalLogger`, `SetGlobal`,
`L`).

Modelling choices:
  * Pointer identity and mutation matter for several claims (the global
    logger pointer, "newly allocated" clones, the *shared* atomic level
    object), so loggers and level cells live in an explicit `Heap`; a Go
    `*Logger` is an index into `Heap.loggers` and a `zap.AtomicLevel` is an
    index into `Heap.levels`.
  * `interface\x7b\x7d` values handed to `zap.Any` are opaque to the wrapper, so
    they are modelled by a small closed inductive `GoAny`.
  * The zap library itself is third-party (not part of this repository); the
    slices of it the wrapper relies on (levels, `Level.UnmarshalText`, the
    `CheckWriteAction` machinery, the hook/`OnFatal` semantics, `With`,
    `AddCallerSkip`) are modelled from zap's documented contract.
  * I/O, encoding and sink behaviour are out of scope (the spec delegates
    them wholly to zap); side effects of the fatal path are captured as an
    explicit list of `Effect`s.
-/

/-- An opaque Go `interface\x7b\x7d` value as passed to `zap.Any`. -/
inductive GoAny
  | str (s : String)
  | int (n : Int)
  | err (msg : String)
  deriving DecidableEq, Repr

/-- Go default formatting of a `GoAny`, as `fmt.Sprintln` would render it. -/
def GoAny.render : GoAny → String
  | .str s => s
  | .int n => toString n
  | .err m => m

/-- `sprintln` from log.go: `fmt.Sprintln(args...)` without the trailing
newline, i.e. the operands' default renderings joined by single spaces. -/
def sprintln (args : List GoAny) : String :=
  String.intercalate " " (args.map GoAny.render)

/-- zapcore.Level (Debug = -1 through Fatal = 5). -/
inductive Level
  | debug | info | warn | error | dpanic | panic | fatal
  deriving DecidableEq, Repr

/-- The numeric value of a zapcore level (zapcore: DebugLevel = -1, ...,
FatalLevel = 5); filtering compares these. -/
def Level.num : Level → Int
  | .debug => -1
  | .info => 0
  | .warn => 1
  | .error => 2
  | .dpanic => 3
  | .panic => 4
  | .fatal => 5

/-- The level-name table of zapcore's `Level.unmarshalText` (lower-case
names, upper-case names, and the empty string for Info). -/
def Level.ofText : String → Option Level
  | "debug" | "DEBUG" => some .debug
  | "info" | "INFO" | "" => some .info
  | "warn" | "WARN" => some .warn
  | "error" | "ERROR" => some .error
  | "dpanic" | "DPANIC" => some .dpanic
  | "panic" | "PANIC" => some .panic
  | "fatal" | "FATAL" => some .fatal
  | _ => none

/-- ASCII lower-casing (Go's `bytes.ToLower` on the ASCII level names the
parser compares against), written structurally so it computes. -/
def strToLower (s : String) : String :=
  String.mk (s.data.map Char.toLower)

/-- zapcore's `Level.UnmarshalText`: try the text as written, then its
lower-cased form; `none` models the "unrecognized level" error. -/
def Level.unmarshalText (s : String) : Option Level :=
  match Level.ofText s with
  | some l => some l
  | none => Level.ofText (strToLower s)

/-- The enabler gating a zap logger's core (what `Core.Enabled` consults).
Only loggers built by `New` have the wrapper's atomic level cell wired into
their core (via `zap.Config.Level`); `zap.NewNop()`'s core is enabled for
no level at all; and a logger handed to `NewWith` keeps whatever enabler
its own core was built with, not the wrapper's cell. -/
inductive CoreEnabler
  | nopCore
  | atomicCell (ref : Nat)
  | fixedLevel (thr : Level)
  deriving DecidableEq, Repr

/-- The state of a `*zap.SugaredLogger` that this wrapper manipulates: the
enabler its core was built with, the structured fields attached with
`With`, and the accumulated caller skip. -/
structure ZapLogger where
  core : CoreEnabler
  fields : List (String × GoAny)
  callerSkip : Int
  deriving DecidableEq, Repr

/-- Whether the wrapped sugared logger is the no-op logger. -/
def ZapLogger.noop (z : ZapLogger) : Bool :=
  match z.core with
  | .nopCore => true
  | _ => false

/-- The `Logger` struct of log.go: a wrapped zap sugared logger plus a
reference (heap index) to a shared `zap.AtomicLevel` cell. -/
structure Logger where
  zap : ZapLogger
  levelRef : Nat
  deriving DecidableEq, Repr

/-- The heap: `*Logger` pointers are indices into `loggers`, and
`zap.AtomicLevel` objects are indices into `levels`. -/
structure Heap where
  loggers : List Logger
  levels : List Level
  deriving DecidableEq, Repr

/-- Allocate a fresh `Logger` object; the returned index is its pointer. -/
def Heap.alloc (h : Heap) (obj : Logger) : Heap × Nat :=
  ({ h with loggers := h.loggers ++ [obj] }, h.loggers.length)

/-- `Config` from log.go. `Files = []` models a nil slice (the
`cfg.Files != nil` guard in `New` makes nil and empty indistinguishable). -/
structure Config where
  DisableStdOut : Bool
  DisableColor : Bool
  Files : List String
  deriving DecidableEq, Repr

/-- The two level encoders `New` chooses between. -/
inductive LevelEncoder
  | capitalColor
  | capital
  deriving DecidableEq, Repr

/-- The fields of the `zap.Config` literal built by `New` that the
specification speaks about. -/
structure ZapConfig where
  levelInit : Level
  outputPaths : List String
  errorOutputPaths : List String
  encodeLevel : LevelEncoder
  deriving DecidableEq, Repr

/-- The `zap.Config` that `New` hands to `zapCfg.Build()`: level initialised
at debug; "stdout" first unless disabled, then the configured files; errors
to "stderr"; colored capital level encoder unless color is disabled. -/
def buildZapConfig (cfg : Config) : ZapConfig :=
  { levelInit := .debug
    outputPaths := (if cfg.DisableStdOut then [] else ["stdout"]) ++ cfg.Files
    errorOutputPaths := ["stderr"]
    encodeLevel := if cfg.DisableColor then .capital else .capitalColor }

/-- `New` (success path; `zapCfg.Build` I/O failures are outside the model):
allocates a fresh atomic level cell at debug and a fresh logger whose zap
logger carries `AddCallerSkip(1)`, no fields, and — via `zap.Config.Level`
— a core gated by that very cell. -/
def New (h : Heap) (cfg : Config) : Heap × Nat :=
  let _ := buildZapConfig cfg
  let levelRef := h.levels.length
  let h := { h with levels := h.levels ++ [Level.debug] }
  h.alloc { zap := { core := .atomicCell levelRef, fields := [], callerSkip := 1 },
            levelRef := levelRef }

/-- The `*zap.SugaredLogger` obtained from `zap.NewNop().Sugar()`: its core
is enabled for no level. -/
def noopZap : ZapLogger :=
  { core := .nopCore, fields := [], callerSkip := 0 }

/-- `NewNoop`: a no-op zap logger with a fresh atomic level cell
(`zap.NewAtomicLevel()` defaults to Info). The cell is *not* wired into
the nop core. -/
def NewNoop (h : Heap) : Heap × Nat :=
  let levelRef := h.levels.length
  let h := { h with levels := h.levels ++ [Level.info] }
  h.alloc { zap := noopZap, levelRef := levelRef }

/-- `NewWith`: wraps an already-built zap logger (keeping its own core
enabler, fields and caller skip) together with a fresh atomic level cell
at `currentLvl`; the cell is *not* wired into the passed logger's core. -/
def NewWith (h : Heap) (z : ZapLogger) (currentLvl : Level) : Heap × Nat :=
  let levelRef := h.levels.length
  let h := { h with levels := h.levels ++ [currentLvl] }
  h.alloc { zap := z, levelRef := levelRef }

/-- `SetLevel` from log.go: "trace"/"TRACE" are rewritten to "debug"; then
the name is parsed with zap's `UnmarshalText`, and only on success is the
shared atomic level cell updated — the parse error is discarded. -/
def SetLevel (h : Heap) (id : Nat) (lvl : String) : Heap :=
  let lvl := if lvl = "trace" || lvl = "TRACE" then "debug" else lvl
  match h.loggers[id]? with
  | some l =>
    match Level.unmarshalText lvl with
    | some zapLevel => { h with levels := h.levels.set l.levelRef zapLevel }
    | none => h
  | none => h

/-- The level currently stored in a logger's shared atomic level cell. -/
def effectiveLevel (h : Heap) (id : Nat) : Option Level :=
  match h.loggers[id]? with
  | some l => h.levels[l.levelRef]?
  | none => none

/-- zap `Core.Enabled` for an entry at level `m`: the nop core is enabled
for nothing; a core gated by an atomic level cell compares `m` against the
cell's current content; a core with its own fixed enabler compares against
that threshold, untouched by the wrapper's cell. -/
def coreEnabled (h : Heap) (core : CoreEnabler) (m : Level) : Bool :=
  match core with
  | .nopCore => false
  | .atomicCell ref =>
    match h.levels[ref]? with
    | some thr => thr.num ≤ m.num
    | none => false
  | .fixedLevel thr => thr.num ≤ m.num

/-- zap's level filtering: an entry at level `m` on logger `id` is emitted
iff the logger's zap core is enabled for `m`. Only for loggers whose core
is gated by their own atomic level cell does this coincide with comparing
`m` against `effectiveLevel`. -/
def emits (h : Heap) (id : Nat) (m : Level) : Bool :=
  match h.loggers[id]? with
  | some l => coreEnabled h l.zap.core m
  | none => false

/-- `clone` from log.go: a newly allocated `Logger` sharing the receiver's
zap logger and its atomic level reference. -/
def clone (h : Heap) (id : Nat) : Heap × Nat :=
  match h.loggers[id]? with
  | some l => h.alloc { zap := l.zap, levelRef := l.levelRef }
  | none => (h, id)

/-- `withFields` from log.go: clone, then replace the clone's zap logger by
`clone.zap.Desugar().With(fields...).Sugar()`; zap's `With` appends the
given fields to the logger's context. (The clone-then-update of the fresh
object is folded into a single allocation.) -/
def withFields (h : Heap) (id : Nat) (fields : List (String × GoAny)) : Heap × Nat :=
  match h.loggers[id]? with
  | some l =>
    h.alloc { zap := { l.zap with fields := l.zap.fields ++ fields }, levelRef := l.levelRef }
  | none => (h, id)

/-- `WithField`: `withFields(zap.Any(key, value))`. -/
def WithField (h : Heap) (id : Nat) (key : String) (value : GoAny) : Heap × Nat :=
  withFields h id [(key, value)]

/-- `WithError`: `WithField("error", err)`. -/
def WithError (h : Heap) (id : Nat) (e : GoAny) : Heap × Nat :=
  WithField h id "error" e

/-- `WithFields`: converts the map to zap fields and calls `withFields`.
The map is modelled as an association list in Go map iteration order. -/
def WithFields (h : Heap) (id : Nat) (fields : List (String × GoAny)) : Heap × Nat :=
  withFields h id fields

/-- `WithCallerSkip`: clone, with the clone's zap logger rebuilt via
`WithOptions(zap.AddCallerSkip(skip))`, which adds `skip` (possibly
negative) to the accumulated caller skip. -/
def WithCallerSkip (h : Heap) (id : Nat) (skip : Int) : Heap × Nat :=
  match h.loggers[id]? with
  | some l =>
    h.alloc { zap := { l.zap with callerSkip := l.zap.callerSkip + skip }, levelRef := l.levelRef }
  | none => (h, id)

/-! ## Pass-through level methods

Each level method of `Logger` invokes exactly one method of the wrapped
`*zap.SugaredLogger`. The invocation is reified as a `ZapCall` (which zap
method, with which arguments); each wrapper method returns the sugared
logger it targets together with the call it makes. -/

/-- A call on a `*zap.SugaredLogger`: one constructor per zap method the
wrapper uses, carrying the arguments passed. -/
inductive ZapCall
  | debug (args : List GoAny)
  | debugf (format : String) (args : List GoAny)
  | info (args : List GoAny)
  | infof (format : String) (args : List GoAny)
  | warn (args : List GoAny)
  | warnf (format : String) (args : List GoAny)
  | error (args : List GoAny)
  | errorf (format : String) (args : List GoAny)
  | fatal (args : List GoAny)
  | fatalf (format : String) (args : List GoAny)
  | panic (args : List GoAny)
  | panicf (format : String) (args : List GoAny)
  deriving DecidableEq, Repr

/-- The zap level a `ZapCall` logs at. -/
def ZapCall.level : ZapCall → Level
  | .debug _ | .debugf _ _ => .debug
  | .info _ | .infof _ _ => .info
  | .warn _ | .warnf _ _ => .warn
  | .error _ | .errorf _ _ => .error
  | .fatal _ | .fatalf _ _ => .fatal
  | .panic _ | .panicf _ _ => .panic

def Logger.Debug (l : Logger) (args : List GoAny) : ZapLogger × ZapCall :=
  (l.zap, .debug args)

def Logger.Debugf (l : Logger) (format : String) (args : List GoAny) : ZapLogger × ZapCall :=
  (l.zap, .debugf format args)

def Logger.Debugln (l : Logger) (args : List GoAny) : ZapLogger × ZapCall :=
  (l.zap, .debug [.str (sprintln args)])

def Logger.Info (l : Logger) (args : List GoAny) : ZapLogger × ZapCall :=
  (l.zap, .info args)

def Logger.Infof (l : Logger) (format : String) (args : List GoAny) : ZapLogger × ZapCall :=
  (l.zap, .infof format args)

def Logger.Infoln (l : Logger) (args : List GoAny) : ZapLogger × ZapCall :=
  (l.zap, .info [.str (sprintln args)])

def Logger.Warn (l : Logger) (args : List GoAny) : ZapLogger × ZapCall :=
  (l.zap, .warn args)

def Logger.Warnf (l : Logger) (format : String) (args : List GoAny) : ZapLogger × ZapCall :=
  (l.zap, .warnf format args)

def Logger.Warnln (l : Logger) (args : List GoAny) : ZapLogger × ZapCall :=
  (l.zap, .warn [.str (sprintln args)])

def Logger.Warning (l : Logger) (args : List GoAny) : ZapLogger × ZapCall :=
  (l.zap, .warn args)

def Logger.Warningf (l : Logger) (format : String) (args : List GoAny) : ZapLogger × ZapCall :=
  (l.zap, .warnf format args)

def Logger.Warningln (l : Logger) (args : List GoAny) : ZapLogger × ZapCall :=
  (l.zap, .warn [.str (sprintln args)])

def Logger.Error (l : Logger) (args : List GoAny) : ZapLogger × ZapCall :=
  (l.zap, .error args)

def Logger.Errorf (l : Logger) (format : String) (args : List GoAny) : ZapLogger × ZapCall :=
  (l.zap, .errorf format args)

def Logger.Errorln (l : Logger) (args : List GoAny) : ZapLogger × ZapCall :=
  (l.zap, .error [.str (sprintln args)])

def Logger.Fatal (l : Logger) (args : List GoAny) : ZapLogger × ZapCall :=
  (l.zap, .fatal args)

def Logger.Fatalf (l : Logger) (format : String) (args : List GoAny) : ZapLogger × ZapCall :=
  (l.zap, .fatalf format args)

def Logger.Fatalln (l : Logger) (args : List GoAny) : ZapLogger × ZapCall :=
  (l.zap, .fatal [.str (sprintln args)])

def Logger.Panic (l : Logger) (args : List GoAny) : ZapLogger × ZapCall :=
  (l.zap, .panic args)

def Logger.Panicf (l : Logger) (format : String) (args : List GoAny) : ZapLogger × ZapCall :=
  (l.zap, .panicf format args)

def Logger.Panicln (l : Logger) (args : List GoAny) : ZapLogger × ZapCall :=
  (l.zap, .panic [.str (sprintln args)])

def Logger.Print (l : Logger) (args : List GoAny) : ZapLogger × ZapCall :=
  (l.zap, .info args)

def Logger.Printf (l : Logger) (format : String) (args : List GoAny) : ZapLogger × ZapCall :=
  (l.zap, .infof format args)

def Logger.Println (l : Logger) (args : List GoAny) : ZapLogger × ZapCall :=
  (l.zap, .info [.str (sprintln args)])

/-! ## The fatal path of a `New`-built logger

`New` installs `zap.OnFatal(doNothingOnFatal)` and a hook that sends SIGINT
to the process's own pid on every fatal-level entry, exiting with status 1
only if the kill syscall fails. Side effects are reified as `Effect`s. -/

/-- An observable side effect of a log call. -/
inductive Effect
  | write (lvl : Level)
  | kill (pid : Nat) (sig : Nat)
  | errorLog (msg : String)
  | syncBuffers
  | exit (code : Nat)
  | goexit
  | panicked
  deriving DecidableEq, Repr

/-- POSIX SIGINT. -/
def SIGINT : Nat := 2

/-- zapcore.WriteThenNoop. -/
def WriteThenNoop : Nat := 0

/-- zapcore.WriteThenGoexit. -/
def WriteThenGoexit : Nat := 1

/-- zapcore.WriteThenPanic. -/
def WriteThenPanic : Nat := 2

/-- zapcore.WriteThenFatal (zap's default on fatal: `os.Exit(1)`). -/
def WriteThenFatal : Nat := 3

/-- log.go: `const doNothingOnFatal zapcore.CheckWriteAction = 100` — a
value outside zap's predefined actions, so zap does nothing on write. -/
def doNothingOnFatal : Nat := 100

/-- zapcore `CheckedEntry.Write`: the process-level action taken after the
entry is written, by `CheckWriteAction`; any unrecognised action (including
`doNothingOnFatal`) does nothing. -/
def onWriteEffects (action : Nat) : List Effect :=
  if action = WriteThenPanic then [.panicked]
  else if action = WriteThenFatal then [.exit 1]
  else if action = WriteThenGoexit then [.goexit]
  else []

/-- zap `Logger.check` on a fatal entry: a configured `WriteThenNoop` is
promoted to `WriteThenFatal` (zap's default fatal behaviour); any other
configured `OnFatal` action is kept as is. -/
def fatalCheckAction (onFatal : Nat) : Nat :=
  if onFatal = WriteThenNoop then WriteThenFatal else onFatal

/-- The hook `New` installs via `zap.Hooks`: on a fatal-level entry it sends
SIGINT to the process's own pid (`killOk` is the syscall outcome); if the
kill fails it logs the failure, syncs, and exits with status 1. On entries
of any other level it does nothing. -/
def newFatalHookEffects (pid : Nat) (killOk : Bool) (entryLvl : Level) : List Effect :=
  if entryLvl = .fatal then
    .kill pid SIGINT ::
      (if killOk then []
       else [.errorLog "failed to syscall.SIGINT on FATAL()", .syncBuffers, .exit 1])
  else []

/-- The full effect sequence of `Fatal`/`Fatalf`/`Fatalln` on a logger built
by `New` (fatal is the maximal level so the entry is never filtered): the
entry is written, the hook runs, then the check-write action configured by
`zap.OnFatal(doNothingOnFatal)` fires. `pid` is the process's own pid and
`killOk` the outcome of the kill syscall. -/
def fatalCallEffects (pid : Nat) (killOk : Bool) : List Effect :=
  .write .fatal :: newFatalHookEffects pid killOk .fatal
    ++ onWriteEffects (fatalCheckAction doNothingOnFatal)

/-! ## The global logger -/

/-- The state of the package: the heap plus the package-level
`globalLogger` pointer. -/
structure GlobalState where
  heap : Heap
  globalLogger : Nat
  deriving DecidableEq, Repr

/-- `var globalLogger = NewNoop()`: the package's initial state. -/
def initialState : GlobalState :=
  let p := NewNoop { loggers := [], levels := [] }
  { heap := p.1, globalLogger := p.2 }

/-- `SetGlobal(l)`: replaces the package-level logger pointer. -/
def SetGlobal (s : GlobalState) (id : Nat) : GlobalState :=
  { s with globalLogger := id }

/-- `L()`: returns the current package-level logger pointer. -/
def L (s : GlobalState) : Nat :=
  s.globalLogger

/-- The package-level operations that can run between two reads of the
global logger. Only `setGlobal` writes the `globalLogger` variable; every
other exported operation touches the heap alone. -/
inductive GlobalOp
  | setGlobal (id : Nat)
  | newLogger (cfg : Config)
  | newNoopLogger
  | setLevelOp (id : Nat) (lvl : String)
  | withFieldOp (id : Nat) (key : String) (value : GoAny)
  | withCallerSkipOp (id : Nat) (skip : Int)

/-- Run one package-level operation on the state. -/
def GlobalOp.run (s : GlobalState) : GlobalOp → GlobalState
  | .setGlobal id => SetGlobal s id
  | .newLogger cfg => { s with heap := (New s.heap cfg).1 }
  | .newNoopLogger => { s with heap := (NewNoop s.heap).1 }
  | .setLevelOp id lvl => { s with heap := SetLevel s.heap id lvl }
  | .withFieldOp id key value => { s with heap := (WithField s.heap id key value).1 }
  | .withCallerSkipOp id skip => { s with heap := (WithCallerSkip s.heap id skip).1 }

/-- Run a list of package-level operations in order. -/
def runOps (s : GlobalState) : List GlobalOp → GlobalState
  | [] => s
  | op :: ops => runOps (op.run s) ops

/-- Whether an operation is a `SetGlobal` call. -/
def GlobalOp.isSetGlobal : GlobalOp → Bool
  | .setGlobal _ => true
  | _ => false

/-- A one-logger heap as produced by a successful `New` on an empty heap:
logger 0 with caller skip 1, no fields, a core gated by level cell 0, and
that cell at debug. -/
def sampleHeap : Heap :=
  { loggers := [{ zap := { core := .atomicCell 0, fields := [], callerSkip := 1 }, levelRef := 0 }],
    levels := [.debug] }

/-- All 32 casings of the five-letter word "trace". -/
def traceCasings : List String :=
  ["trace", "tracE", "traCe", "traCE", "trAce", "trAcE", "trACe", "trACE",
   "tRace", "tRacE", "tRaCe", "tRaCE", "tRAce", "tRAcE", "tRACe", "tRACE",
   "Trace", "TracE", "TraCe", "TraCE", "TrAce", "TrAcE", "TrACe", "TrACE",
   "TRace", "TRacE", "TRaCe", "TRaCE", "TRAce", "TRAcE", "TRACe", "TRACE"]


/-! ## Helper lemmas (shared) -/

/-- None of the 32 casings of "trace" is recognised by zap's level parser
(zap has no trace level). -/
theorem traceCasings_unrecognized : ∀ s ∈ traceCasings, Level.unmarshalText s = none := by
  decide

/-- `SetLevel` is the identity when the name is not one of the two trace
spellings and zap's parser rejects it. -/
theorem SetLevel_of_parse_none (h : Heap) (id : Nat) (name : String)
    (h1 : name ≠ "trace") (h2 : name ≠ "TRACE")
    (h3 : Level.unmarshalText name = none) :
    SetLevel h id name = h := by
  have hcond : (decide (name = "trace") || decide (name = "TRACE")) = false := by
    simp [h1, h2]
  cases hm : h.loggers[id]? with
  | none => simp [SetLevel, hcond, hm]
  | some l => simp [SetLevel, hcond, hm, h3]

/-! ## Claims -/

/-- C1: for every logger built by `New`, a fatal-level call (`Fatal`,
`Fatalf`, `Fatalln`) sends SIGINT to the process's own pid in place of
process termination; the check-write action on fatal is overridden to do
nothing (whereas zap's default `WriteThenNoop` would be promoted to
`WriteThenFatal`, i.e. `os.Exit(1)`), and the process exits with status 1
exactly when sending the signal fails. -/
theorem fatal_sends_sigint_instead_of_exit (pid : Nat) (killOk : Bool) :
    Effect.kill pid SIGINT ∈ fatalCallEffects pid killOk
  ∧ onWriteEffects (fatalCheckAction doNothingOnFatal) = []
  ∧ onWriteEffects (fatalCheckAction WriteThenNoop) = [Effect.exit 1]
  ∧ (Effect.exit 1 ∈ fatalCallEffects pid killOk ↔ killOk = false)
  ∧ Effect.panicked ∉ fatalCallEffects pid killOk
  ∧ Effect.goexit ∉ fatalCallEffects pid killOk := by
  refine ⟨?_, rfl, rfl, ?_, ?_, ?_⟩ <;>
    cases killOk <;>
      simp [fatalCallEffects, newFatalHookEffects, onWriteEffects, fatalCheckAction,
        doNothingOnFatal, WriteThenNoop, WriteThenGoexit, WriteThenPanic, WriteThenFatal]

/-- C2: before any `SetGlobal` call, the global accessor `L()` returns the
logger installed by `var globalLogger = NewNoop()`: a logger whose wrapped
zap logger is the no-op logger. -/
theorem global_logger_defaults_to_noop :
    initialState.heap.loggers[L initialState]? = some { zap := noopZap, levelRef := 0 }
  ∧ noopZap.noop = true :=
  ⟨rfl, rfl⟩

/-- C4: every level method forwards to exactly one call on the wrapped
sugared logger: `Debug`/`Debugf`, `Info`/`Infof`, `Warn`/`Warnf`,
`Error`/`Errorf`, `Fatal`/`Fatalf`, `Panic`/`Panicf` to the
identically-named zap calls with the same arguments; `Warning`,
`Warningf`, `Warningln` to the Warn-level calls; `Print`, `Printf`,
`Println` to the Info-level calls. -/
theorem level_methods_pass_through (l : Logger) (args : List GoAny) (format : String) :
    l.Debug args = (l.zap, .debug args)
  ∧ l.Debugf format args = (l.zap, .debugf format args)
  ∧ l.Info args = (l.zap, .info args)
  ∧ l.Infof format args = (l.zap, .infof format args)
  ∧ l.Warn args = (l.zap, .warn args)
  ∧ l.Warnf format args = (l.zap, .warnf format args)
  ∧ l.Error args = (l.zap, .error args)
  ∧ l.Errorf format args = (l.zap, .errorf format args)
  ∧ l.Fatal args = (l.zap, .fatal args)
  ∧ l.Fatalf format args = (l.zap, .fatalf format args)
  ∧ l.Panic args = (l.zap, .panic args)
  ∧ l.Panicf format args = (l.zap, .panicf format args)
  ∧ l.Warning args = l.Warn args
  ∧ l.Warningf format args = l.Warnf format args
  ∧ l.Warningln args = l.Warnln args
  ∧ (l.Warningln args).2.level = .warn
  ∧ l.Print args = l.Info args
  ∧ l.Printf format args = l.Infof format args
  ∧ l.Println args = l.Infoln args
  ∧ (l.Println args).2.level = .info :=
  ⟨rfl, rfl, rfl, rfl, rfl, rfl, rfl, rfl, rfl, rfl,
   rfl, rfl, rfl, rfl, rfl, rfl, rfl, rfl, rfl, rfl⟩

/-- C5: `New` maps `Config` onto the zap configuration as stated: output
paths are "stdout" (exactly when `DisableStdOut` is false) followed by the
configured files in order; the level encoder is the colored one exactly
when `DisableColor` is false; the error output path is "stderr"; the level
is initialised to debug (both in the config and in the built logger's
atomic level cell). -/
theorem new_config_mapping (cfg : Config) (h : Heap) :
    (buildZapConfig cfg).outputPaths
      = (if cfg.DisableStdOut = false then ["stdout"] else []) ++ cfg.Files
  ∧ ((buildZapConfig cfg).encodeLevel = .capitalColor ↔ cfg.DisableColor = false)
  ∧ (buildZapConfig cfg).errorOutputPaths = ["stderr"]
  ∧ (buildZapConfig cfg).levelInit = .debug
  ∧ effectiveLevel (New h cfg).1 (New h cfg).2 = some .debug := by
  obtain ⟨so, co, fs⟩ := cfg
  refine ⟨?_, ?_, rfl, rfl, ?_⟩
  · cases so <;> simp [buildZapConfig]
  · cases co <;> simp [buildZapConfig]
  · simp [New, Heap.alloc, effectiveLevel, List.getElem?_concat_length]

/-- Running any list of operations none of which is a `SetGlobal` leaves the
package-level logger pointer unchanged. -/
theorem runOps_L_of_no_setGlobal (ops : List GlobalOp) :
    ∀ s : GlobalState, (∀ op ∈ ops, op.isSetGlobal = false) →
      L (runOps s ops) = L s := by
  induction ops with
  | nil => intro s _; rfl
  | cons op ops ih =>
    intro s hops
    have hop : op.isSetGlobal = false := hops op (List.mem_cons_self op ops)
    have hrest : ∀ o ∈ ops, o.isSetGlobal = false :=
      fun o ho => hops o (List.mem_cons_of_mem op ho)
    have hstep : L (op.run s) = L s := by
      cases op <;> simp_all [GlobalOp.run, GlobalOp.isSetGlobal, SetGlobal, L]
    calc L (runOps (op.run s) ops) = L (op.run s) := ih (op.run s) hrest
      _ = L s := hstep

/-- C3: `SetGlobal(l)` makes every subsequent `L()` return exactly `l` (the
same pointer), and this persists across any sequence of package operations
that contains no further `SetGlobal`. -/
theorem setGlobal_then_L (s : GlobalState) (id : Nat) (ops : List GlobalOp)
    (hops : ∀ op ∈ ops, op.isSetGlobal = false) :
    L (SetGlobal s id) = id ∧ L (runOps (SetGlobal s id) ops) = id := by
  refine ⟨rfl, ?_⟩
  rw [runOps_L_of_no_setGlobal ops (SetGlobal s id) hops]
  rfl

/-- Witness for C3: after `SetGlobal 3` and an intervening `WithField` and
`SetLevel`, `L()` still returns pointer 3. -/
theorem setGlobal_then_L_witness :
    L (SetGlobal initialState 3) = 3
  ∧ L (runOps (SetGlobal initialState 3)
        [GlobalOp.withFieldOp 0 "k" (.int 1), GlobalOp.setLevelOp 0 "info"]) = 3 :=
  setGlobal_then_L initialState 3
    [GlobalOp.withFieldOp 0 "k" (.int 1), GlobalOp.setLevelOp 0 "info"]
    (by
      intro op hop
      rcases List.mem_cons.mp hop with h | h
      · subst h; rfl
      · rcases List.mem_cons.mp h with h2 | h2
        · subst h2; rfl
        · cases h2)

/-- Counterexample to C6 as stated. On the no-op logger — the package's
own initial global logger, built by `NewNoop` — `SetLevel "debug"` does
update the atomic level cell to debug, yet a subsequent debug-level call is
*not* emitted: the nop core is enabled for no level and the cell is not
wired into it, so "calls at or above the new level are emitted" fails for
this logger. -/
theorem setLevel_filtering_fails_on_noop :
    effectiveLevel (SetLevel initialState.heap 0 "debug") 0 = some .debug
  ∧ emits (SetLevel initialState.heap 0 "debug") 0 .debug = false := by
  decide

/-- C6 (amended): `SetLevel` with a name that (after the trace rewrite)
parses to level `z` updates the shared atomic level cell to `z` at runtime
for *every* logger; for a logger whose zap core is gated by its own atomic
level cell — i.e. one built by `New`, and any of its clones — a subsequent
call at level `m` is then emitted exactly when `m` is at or above `z`. (A
`NewNoop` logger emits nothing at any level, and a `NewWith` logger's
emission is governed by its own core enabler, not the updated cell.) -/
theorem setLevel_dynamic_filtering (h : Heap) (id : Nat) (l : Logger) (name : String) (z : Level)
    (hl : h.loggers[id]? = some l)
    (href : l.levelRef < h.levels.length)
    (hparse : Level.unmarshalText
      (if name = "trace" || name = "TRACE" then "debug" else name) = some z) :
    effectiveLevel (SetLevel h id name) id = some z
  ∧ (l.zap.core = CoreEnabler.atomicCell l.levelRef →
      ∀ m : Level, emits (SetLevel h id name) id m = decide (z.num ≤ m.num)) := by
  have hset : SetLevel h id name = { h with levels := h.levels.set l.levelRef z } := by
    simp only [SetLevel, hl]
    rw [hparse]
  have heff : effectiveLevel (SetLevel h id name) id = some z := by
    rw [hset]
    simp [effectiveLevel, hl, List.getElem?_set_eq_of_lt z href]
  refine ⟨heff, fun hcore m => ?_⟩
  rw [hset]
  simp [emits, hl, hcore, coreEnabled, List.getElem?_set_eq_of_lt z href]

/-- Witness for C6 at a concrete heap built like `New` does (core gated by
cell 0): `SetLevel "error"` stores the error level; a warn-level call is
then filtered out and an error-level call is emitted. -/
theorem setLevel_dynamic_filtering_witness :
    effectiveLevel (SetLevel sampleHeap 0 "error") 0 = some .error
  ∧ emits (SetLevel sampleHeap 0 "error") 0 .warn = false
  ∧ emits (SetLevel sampleHeap 0 "error") 0 .error = true := by
  have h := setLevel_dynamic_filtering sampleHeap 0
    { zap := { core := .atomicCell 0, fields := [], callerSkip := 1 }, levelRef := 0 }
    "error" .error rfl (by decide) rfl
  exact ⟨h.1, (h.2 rfl .warn).trans (by decide), (h.2 rfl .error).trans (by decide)⟩

/-- C8: for a name that is neither of the two trace spellings nor
recognised by zap's parser, `SetLevel` leaves the whole state — in
particular the logger's level — unchanged, and (by its `Unit`-like return
type in the source) reports no error to the caller. -/
theorem setLevel_unrecognized_is_noop (h : Heap) (id : Nat) (name : String)
    (h1 : name ≠ "trace") (h2 : name ≠ "TRACE")
    (h3 : Level.unmarshalText name = none) :
    SetLevel h id name = h
  ∧ effectiveLevel (SetLevel h id name) id = effectiveLevel h id := by
  have hfix := SetLevel_of_parse_none h id name h1 h2 h3
  exact ⟨hfix, by rw [hfix]⟩

/-- Witness for C8: "verbose" is not a zap level name; `SetLevel` ignores
it and the level stays at debug. -/
theorem setLevel_unrecognized_is_noop_witness :
    SetLevel sampleHeap 0 "verbose" = sampleHeap
  ∧ effectiveLevel (SetLevel sampleHeap 0 "verbose") 0 = effectiveLevel sampleHeap 0 :=
  setLevel_unrecognized_is_noop sampleHeap 0 "verbose"
    (by decide) (by decide) (by decide)

/-- C9: `SetLevel` maps exactly the spellings "trace" and "TRACE" to the
debug level: on those two names it behaves exactly like `SetLevel "debug"`,
and every other casing of "trace" is unrecognised and leaves the state
unchanged. -/
theorem setLevel_trace_exact_spellings (h : Heap) (id : Nat) :
    SetLevel h id "trace" = SetLevel h id "debug"
  ∧ SetLevel h id "TRACE" = SetLevel h id "debug"
  ∧ ∀ s ∈ traceCasings, s ≠ "trace" → s ≠ "TRACE" → SetLevel h id s = h := by
  refine ⟨rfl, rfl, fun s hs h1 h2 => ?_⟩
  exact SetLevel_of_parse_none h id s h1 h2 (traceCasings_unrecognized s hs)

/-- Witness for C9: on a concrete heap, "trace" acts as "debug" and the
mixed casing "Trace" is ignored. -/
theorem setLevel_trace_exact_spellings_witness :
    SetLevel sampleHeap 0 "trace" = SetLevel sampleHeap 0 "debug"
  ∧ SetLevel sampleHeap 0 "Trace" = sampleHeap :=
  ⟨(setLevel_trace_exact_spellings sampleHeap 0).1,
   (setLevel_trace_exact_spellings sampleHeap 0).2.2 "Trace"
     (by decide) (by decide) (by decide)⟩

/-- Unfolding of `withFields` when the receiver exists: a fresh logger is
appended carrying the receiver's fields extended by the new ones, the same
caller skip, and the receiver's level reference. -/
theorem withFields_eq (h : Heap) (id : Nat) (l : Logger) (fields : List (String × GoAny))
    (hl : h.loggers[id]? = some l) :
    withFields h id fields =
      ({ h with loggers := h.loggers ++
          [{ zap := { l.zap with fields := l.zap.fields ++ fields }, levelRef := l.levelRef }] },
       h.loggers.length) := by
  simp only [withFields, hl, Heap.alloc]

/-- Unfolding of `WithCallerSkip` when the receiver exists. -/
theorem withCallerSkip_eq (h : Heap) (id : Nat) (l : Logger) (skip : Int)
    (hl : h.loggers[id]? = some l) :
    WithCallerSkip h id skip =
      ({ h with loggers := h.loggers ++
          [{ zap := { l.zap with callerSkip := l.zap.callerSkip + skip },
             levelRef := l.levelRef }] },
       h.loggers.length) := by
  simp only [WithCallerSkip, hl, Heap.alloc]

/-- Unfolding of `clone` when the receiver exists. -/
theorem clone_eq (h : Heap) (id : Nat) (l : Logger)
    (hl : h.loggers[id]? = some l) :
    clone h id =
      ({ h with loggers := h.loggers ++ [{ zap := l.zap, levelRef := l.levelRef }] },
       h.loggers.length) := by
  simp only [clone, hl, Heap.alloc]

/-- C7: `WithField`, `WithFields`, `WithError` and `WithCallerSkip` return
a newly allocated child (a pointer that did not exist in the old heap)
carrying the added fields (resp. adjusted caller skip), leave the receiver
untouched, do not touch any level cell, and `WithError e` is exactly
`WithField "error" e`. -/
theorem with_helpers_fresh_clone (h : Heap) (id : Nat) (l : Logger)
    (key : String) (value : GoAny) (fields : List (String × GoAny)) (e : GoAny) (skip : Int)
    (hl : h.loggers[id]? = some l) :
    (WithField h id key value).2 = h.loggers.length
  ∧ h.loggers[(WithField h id key value).2]? = none
  ∧ (WithField h id key value).1.loggers[id]? = some l
  ∧ (WithField h id key value).1.loggers[(WithField h id key value).2]?
      = some { zap := { l.zap with fields := l.zap.fields ++ [(key, value)] },
               levelRef := l.levelRef }
  ∧ (WithField h id key value).1.levels = h.levels
  ∧ (WithFields h id fields).1.loggers[id]? = some l
  ∧ (WithFields h id fields).1.loggers[(WithFields h id fields).2]?
      = some { zap := { l.zap with fields := l.zap.fields ++ fields },
               levelRef := l.levelRef }
  ∧ WithError h id e = WithField h id "error" e
  ∧ (WithCallerSkip h id skip).1.loggers[id]? = some l
  ∧ (WithCallerSkip h id skip).1.loggers[(WithCallerSkip h id skip).2]?
      = some { zap := { l.zap with callerSkip := l.zap.callerSkip + skip },
               levelRef := l.levelRef }
  ∧ (WithCallerSkip h id skip).1.levels = h.levels := by
  have hid : id < h.loggers.length := (List.getElem?_eq_some.mp hl).1
  have h1 := withFields_eq h id l [(key, value)] hl
  have h2 := withFields_eq h id l fields hl
  have h3 := withCallerSkip_eq h id l skip hl
  simp only [WithField, WithFields, WithError]
  rw [h1, h2, h3]
  refine ⟨rfl, ?_, ?_, ?_, rfl, ?_, ?_, ?_, ?_, ?_, rfl⟩
  · simp
  · rw [List.getElem?_append_left hid]; exact hl
  · exact List.getElem?_concat_length _ _
  · rw [List.getElem?_append_left hid]; exact hl
  · exact List.getElem?_concat_length _ _
  · trivial
  · rw [List.getElem?_append_left hid]; exact hl
  · exact List.getElem?_concat_length _ _

/-- Witness for C7 on a concrete heap: the child is pointer 1 (absent from
the old heap), the receiver at pointer 0 is unchanged, the child carries
the added field, and `WithError` coincides with `WithField "error"`. -/
theorem with_helpers_fresh_clone_witness :
    (WithField sampleHeap 0 "k" (.int 5)).2 = 1
  ∧ sampleHeap.loggers[(WithField sampleHeap 0 "k" (.int 5)).2]? = none
  ∧ (WithField sampleHeap 0 "k" (.int 5)).1.loggers[0]?
      = some { zap := { core := .atomicCell 0, fields := [], callerSkip := 1 }, levelRef := 0 }
  ∧ (WithField sampleHeap 0 "k" (.int 5)).1.loggers[(WithField sampleHeap 0 "k" (.int 5)).2]?
      = some { zap := { core := .atomicCell 0, fields := [("k", .int 5)], callerSkip := 1 },
               levelRef := 0 }
  ∧ WithError sampleHeap 0 (.err "boom") = WithField sampleHeap 0 "error" (.err "boom")
  ∧ (WithCallerSkip sampleHeap 0 2).1.loggers[(WithCallerSkip sampleHeap 0 2).2]?
      = some { zap := { core := .atomicCell 0, fields := [], callerSkip := 3 }, levelRef := 0 } := by
  have h := with_helpers_fresh_clone sampleHeap 0
    { zap := { core := .atomicCell 0, fields := [], callerSkip := 1 }, levelRef := 0 }
    "k" (.int 5) [] (.err "boom") 2 rfl
  exact ⟨h.1, h.2.1, h.2.2.1, h.2.2.2.1, h.2.2.2.2.2.2.2.1, h.2.2.2.2.2.2.2.2.2.1⟩

/-- Unfolding of `SetLevel` when the receiver exists and the (trace-
rewritten) name parses: exactly the receiver's level cell is overwritten. -/
theorem SetLevel_of_parse_some (h : Heap) (id : Nat) (l : Logger) (name : String) (z : Level)
    (hl : h.loggers[id]? = some l)
    (hparse : Level.unmarshalText
      (if name = "trace" || name = "TRACE" then "debug" else name) = some z) :
    SetLevel h id name = { h with levels := h.levels.set l.levelRef z } := by
  simp only [SetLevel, hl]
  rw [hparse]

/-- The heap after `WithField sampleHeap 0 "k" 1`: parent at pointer 0 and
child at pointer 1, both referring to level cell 0. -/
def sampleHeap2 : Heap :=
  (WithField sampleHeap 0 "k" (.int 1)).1

/-- C10: every child produced by `WithField`, `WithFields`, `WithError`,
`WithCallerSkip` (and the underlying `clone`) refers to the *same* atomic
level cell as its parent, and a `SetLevel` on any logger overwrites that
shared cell, so every logger referring to it — parent and clones alike —
sees the new level at once. -/
theorem clones_share_atomic_level (h : Heap) (id : Nat) (l : Logger)
    (key : String) (value : GoAny) (fields : List (String × GoAny)) (e : GoAny) (skip : Int)
    (hl : h.loggers[id]? = some l) :
    ((WithField h id key value).1.loggers[(WithField h id key value).2]?).map Logger.levelRef
      = some l.levelRef
  ∧ ((WithFields h id fields).1.loggers[(WithFields h id fields).2]?).map Logger.levelRef
      = some l.levelRef
  ∧ ((WithError h id e).1.loggers[(WithError h id e).2]?).map Logger.levelRef
      = some l.levelRef
  ∧ ((WithCallerSkip h id skip).1.loggers[(WithCallerSkip h id skip).2]?).map Logger.levelRef
      = some l.levelRef
  ∧ ((clone h id).1.loggers[(clone h id).2]?).map Logger.levelRef = some l.levelRef
  ∧ (∀ id2 l2 name z, h.loggers[id2]? = some l2 → l2.levelRef = l.levelRef →
      l.levelRef < h.levels.length →
      Level.unmarshalText
        (if name = "trace" || name = "TRACE" then "debug" else name) = some z →
      effectiveLevel (SetLevel h id name) id2 = some z) := by
  have h1 := withFields_eq h id l [(key, value)] hl
  have h2 := withFields_eq h id l fields hl
  have h3 := withFields_eq h id l [("error", e)] hl
  have h4 := withCallerSkip_eq h id l skip hl
  have h5 := clone_eq h id l hl
  refine ⟨?_, ?_, ?_, ?_, ?_, ?_⟩
  · simp only [WithField]
    rw [h1, List.getElem?_concat_length]
    rfl
  · simp only [WithFields]
    rw [h2, List.getElem?_concat_length]
    rfl
  · simp only [WithError, WithField]
    rw [h3, List.getElem?_concat_length]
    rfl
  · rw [h4, List.getElem?_concat_length]
    rfl
  · rw [h5, List.getElem?_concat_length]
    rfl
  · intro id2 l2 name z hl2 hshare href hparse
    rw [SetLevel_of_parse_some h id l name z hl hparse]
    simp only [effectiveLevel, hl2, hshare]
    exact List.getElem?_set_eq_of_lt z href

/-- Witness for C10: in the two-logger heap `sampleHeap2` (parent 0, child
1 sharing level cell 0), a further clone of the child still refers to cell
0, and `SetLevel "warn"` called on the *child* changes the effective level
of the *parent* to warn. -/
theorem clones_share_atomic_level_witness :
    ((WithField sampleHeap2 1 "x" (.int 2)).1.loggers[(WithField sampleHeap2 1 "x"
        (.int 2)).2]?).map Logger.levelRef = some 0
  ∧ effectiveLevel (SetLevel sampleHeap2 1 "warn") 0 = some .warn := by
  have h := clones_share_atomic_level sampleHeap2 1
    { zap := { core := .atomicCell 0, fields := [("k", .int 1)], callerSkip := 1 }, levelRef := 0 }
    "x" (.int 2) [] (.err "e") 0 rfl
  exact ⟨h.1, h.2.2.2.2.2 0
    { zap := { core := .atomicCell 0, fields := [], callerSkip := 1 }, levelRef := 0 }
    "warn" .warn rfl rfl (by decide) rfl⟩
